import Mathlib

/-!
Verification development for the BESS-Crawler pipeline.

Shallow embedding of the pure core of the crawler: text normalization
(apps/parser resp. apps/extract/normalize.py), the BESS keyword tables
(apps/extract/keywords_bess.py), the prefilter (apps/extract/prefilter.py),
the rule classifier (apps/extract/classifier_bess.py), the project-entity
upsert and rollup (apps/db/dao.py, apps/extract/project_rollup.py,
apps/extract/entity_resolution.py, apps/worker/project_linking.py), the
cached downloader (apps/downloader/fetch_cached.py, apps/net/cache.py,
apps/net/ratelimit.py), the SSL fallback policy (apps/net/http_client.py,
apps/net/ssl_policy.py) and the RIS session pagination
(apps/crawlers/ris/sessionnet.py).

Numeric scores: the Python source computes scores with float constants that
are all integer multiples of 0.01; every sum, difference, clamp bound and
threshold comparison the claims touch is exact at that granularity, so
scores are embedded as integers in hundredths (0.55 becomes 55, the clamp
to [0.0, 1.0] becomes a clamp to [0, 100]).
-/

namespace BESSCrawler

/-! ## Characters and python-style string helpers -/

/-- Python str.lower restricted to the character repertoire the crawler
handles: ASCII letters and the German letters appearing in the keyword
tables. -/
def pyLowerChar (c : Char) : Char :=
  if c == 'Ä' then 'ä'
  else if c == 'Ö' then 'ö'
  else if c == 'Ü' then 'ü'
  else if c == 'ẞ' then 'ß'
  else c.toLower

/-- Lowercase a whole string (python `s.lower()`). -/
def pyLower (s : String) : String := ⟨s.data.map pyLowerChar⟩

/-- Whitespace characters of python's `\s` (ASCII part), as used by
`re.sub(r'\s+', ' ', ...)` and `str.strip()`. -/
def isPySpace (c : Char) : Bool :=
  c == ' ' || c == '\t' || c == '\n' || c == '\r' || c == '\x0b' || c == '\x0c'

/-- `p.isPrefixOf h` on raw char lists. -/
def startsWithChars : List Char → List Char → Bool
  | [], _ => true
  | _ :: _, [] => false
  | p :: ps, h :: hs => p == h && startsWithChars ps hs

/-- Substring containment on char lists: does `hay` contain `pat`? -/
def containsSubChars (pat : List Char) : List Char → Bool
  | [] => startsWithChars pat []
  | h :: hs => startsWithChars pat (h :: hs) || containsSubChars pat hs

/-- Python `pat in hay` (substring test). -/
def strContains (hay pat : String) : Bool := containsSubChars pat.data hay.data

/-- Python `any(term in hay for term in terms)`. -/
def containsAny (hay : String) (terms : List String) : Bool :=
  terms.any (fun t => strContains hay t)

/-- Index of the first occurrence of `pat` in a char list
(python `hay.find(pat)` when the pattern is present). -/
def findSubChars (pat : List Char) : List Char → Nat → Option Nat
  | [], i => if startsWithChars pat [] then some i else none
  | h :: hs, i =>
    if startsWithChars pat (h :: hs) then some i else findSubChars pat hs (i + 1)

/-- Python `str.strip()` (whitespace at both ends removed). -/
def pyStripChars (s : List Char) : List Char :=
  ((s.dropWhile isPySpace).reverse.dropWhile isPySpace).reverse

/-! ## Text normalization (apps/extract/normalize.py) -/

/-- One character of `normalize_umlauts`: the eight successive
`str.replace` calls all have single-character patterns whose replacements
are plain ASCII, so their composition is this per-character expansion. -/
def umlautChar (c : Char) : List Char :=
  if c == 'ä' then ['a', 'e']
  else if c == 'ö' then ['o', 'e']
  else if c == 'ü' then ['u', 'e']
  else if c == 'Ä' then ['A', 'e']
  else if c == 'Ö' then ['O', 'e']
  else if c == 'Ü' then ['U', 'e']
  else if c == 'ß' then ['s', 's']
  else if c == 'ẞ' then ['S', 's']
  else [c]

/-- `normalize_umlauts` (normalized component). -/
def normalize_umlauts (s : String) : String := ⟨(s.data.map umlautChar).flatten⟩

/-- Collapse whitespace runs to a single blank
(python `re.sub(r'\s+', ' ', s)`); the flag records whether the previous
character was part of a whitespace run. -/
def collapseWsChars : List Char → Bool → List Char
  | [], _ => []
  | c :: rest, prevSpace =>
    if isPySpace c then
      if prevSpace then collapseWsChars rest true
      else ' ' :: collapseWsChars rest true
    else c :: collapseWsChars rest false

/-- `normalize_text` (normalized component; the python function also returns
the untouched original, which callers keep separately): lowercase, expand
umlauts, collapse whitespace, strip. -/
def normalize_text (s : String) : String :=
  ⟨pyStripChars (collapseWsChars (normalize_umlauts (pyLower s)).data false)⟩

/-! ## Keyword tables (apps/extract/keywords_bess.py) -/

def PLANNING_TERMS_STRONG : List String :=
  ["bebauungsplan", "b-plan", "bauleitplanung", "baugb", "flaechennutzungsplan",
   "flächennutzungsplan", "fnp", "vorhabenbezogener bebauungsplan", "vbp"]

def PLANNING_STEP_TERMS : List String :=
  ["aufstellungsbeschluss", "beschluss zur aufstellung", "beschlussfassung zur aufstellung",
   "gemäß § 2 abs. 1 baugb", "gemaess § 2 abs. 1 baugb", "§ 2 abs. 1 baugb",
   "fruehzeitige beteiligung", "frühzeitige beteiligung", "§ 3 abs. 1 baugb",
   "§ 4 abs. 1 baugb", "oeffentliche auslegung", "öffentliche auslegung",
   "auslegung der unterlagen", "§ 3 abs. 2 baugb", "§ 4 abs. 2 baugb",
   "satzungsbeschluss", "als satzung beschlossen", "bekanntmachung des satzungsbeschlusses",
   "inkrafttreten", "tritt in kraft", "§ 10 baugb"]

def PERMIT_TERMS_STRONG : List String :=
  ["bauvorbescheid", "antrag auf bauvorbescheid", "vorbescheid", "baugenehmigung",
   "bauantrag", "genehmigung nach", "gemeindliches einvernehmen",
   "einvernehmen gemaess § 36 baugb", "§ 36 baugb", "stellungnahme der gemeinde",
   "einvernehmen erteilen", "einvernehmen versagen", "bauvoranfrage", "bauvorantrag",
   "kenntnisnahme", "antrag auf errichtung", "standortgemeinde"]

def LEGAL_BASIS_TERMS : List String :=
  ["§ 35 baugb", "aussenbereich", "außenbereich", "privilegiertes vorhaben",
   "§ 34 baugb", "innenbereich", "§ 36 baugb"]

def BESS_TERMS_EXPLICIT : List String :=
  ["batteriespeicher", "batterie-speicher", "energiespeicher", "stromspeicher",
   "grossspeicher", "großspeicher", "bess", "speicheranlage", "speicherpark",
   "speicherkraftwerk"]

def BESS_TERMS_CONTAINER_GRID : List String :=
  ["containeranlage", "speichercontainer", "wechselrichter", "trafostation",
   "trafostationen", "transformator", "umspannwerk", "netzanschluss",
   "mittelspannung", "hochspannung", "anschluss an das stromnetz",
   "netzverknuepfungspunkt", "netzverknüpfungspunkt", "anlage zur energiespeicherung"]

def ENERGY_CONTEXT_TERMS : List String :=
  ["photovoltaik", "pv", "solarpark", "windenergie", "energieerzeugung",
   "energieversorgung", "strom", "netzdienlich", "netzdienlichkeit", "regelenergie",
   "spitzenlast", "erneuerbare energien"]

def ZONING_TERMS : List String :=
  ["sondergebiet", "so ", "so energie", "sondergebiet energie", "industriegebiet",
   "gi", "gewerbegebiet", "ge", "flaeche fuer versorgungsanlagen",
   "fläche für versorgungsanlagen", "technische anlagen", "anlagen zur energieversorgung",
   "versorgung"]

def NEGATIVE_STORAGE_TERMS : List String :=
  ["regenrueckhaltebecken", "regenrückhaltebecken", "wasserbehaelter", "wasserbehälter",
   "loeschwasser", "löschwasser", "waermespeicher", "wärmespeicher", "kaeltespeicher",
   "kältespeicher", "gaslager", "gasspeicher", "muell", "abfall", "lagerhalle",
   "lagerung", "speisekammer"]

def NEGATIVE_UNRELATED_TERMS : List String :=
  ["datenspeicher", "speicherstadt", "speicherkarte", "cloud"]

/-! ## Prefilter (apps/extract/prefilter.py) -/

def prefilterStrongBessTerms : List String :=
  ["batteriespeicher", "batterie-speicher", "energiespeicher", "stromspeicher",
   "grossspeicher", "großspeicher"]

def prefilterSolarTerms : List String :=
  ["photovoltaik", "pv", "solarpark", "solaranlage", "solar"]

def prefilterProcedureTerms : List String :=
  ["aufstellungsbeschluss", "öffentliche auslegung", "oeffentliche auslegung",
   "satzungsbeschluss", "bauvorbescheid", "baugenehmigung", "§ 36", "§36",
   "einvernehmen"]

def prefilterUrlProcedureTerms : List String :=
  ["bauleitplanung", "bebauungsplan", "amtsblatt", "ris", "sessionnet"]

def prefilterContainerTerms : List String :=
  ["amtsblatt", "sonderamtsblatt", "bekanntmachungsblatt", "ausgabe", "nummer", "nr."]

/-- `prefilter_score(title, url, html_snippet)` in integer hundredths.
The python function lowercases title and url, builds a combined string that
is never consulted again, adds 0.60 / 0.40 / 0.30 / 0.20 bonuses, subtracts
0.70 for a container-like title with no procedure signal, and clamps to
[0, 1]. -/
def prefilter_score (title : String) (url : String := "") : Int :=
  let title_lower := pyLower title
  let url_lower := pyLower url
  let score : Int := if containsAny title_lower prefilterStrongBessTerms then 60 else 0
  let score := if containsAny title_lower prefilterSolarTerms then score + 40 else score
  let has_procedure_signal := containsAny title_lower prefilterProcedureTerms
  let score := if has_procedure_signal then score + 30 else score
  let score := if containsAny url_lower prefilterUrlProcedureTerms then score + 20 else score
  let is_container := containsAny title_lower prefilterContainerTerms
  let score := if is_container && !has_procedure_signal then score - 70 else score
  max 0 (min 100 score)

/-- `should_extract(prefilter_score, mode, discovery_source)` in integer
hundredths.  Each arm reproduces the python branch structure: a recognized
source with a mode other than fast/deep falls through to the trailing
default block, exactly as in the source. -/
def should_extract (ps : Int) (mode : String := "fast") (ds : Option String := none) : Bool :=
  let isRIS := ds == some "RIS" || ds == some "ris"
  let isAmtsblatt := ds == some "AMTSBLATT" || ds == some "amtsblatt"
  if isRIS && mode == "fast" then decide (35 ≤ ps)
  else if isRIS && mode == "deep" then decide (20 ≤ ps)
  else if isAmtsblatt && mode == "fast" then decide (50 ≤ ps)
  else if isAmtsblatt && mode == "deep" then decide (30 ≤ ps)
  else if !isRIS && !isAmtsblatt && mode == "fast" then decide (60 ≤ ps)
  else if !isRIS && !isAmtsblatt && mode == "deep" then decide (50 ≤ ps)
  else if mode == "fast" then decide (60 ≤ ps)
  else if mode == "deep" then decide (30 ≤ ps)
  else decide (60 ≤ ps)

/-- The three discovery sources of the pipeline.  The gazette source is
persisted under the tag AMTSBLATT by the discovery worker. -/
inductive DiscoverySource
  | RIS
  | GAZETTE
  | MUNICIPAL_WEBSITE
deriving DecidableEq

/-- The `discovery_source` string the discovery worker stores on every
candidate of each source (apps/worker/discovery_worker.py). -/
def DiscoverySource.tag : DiscoverySource → String
  | .RIS => "RIS"
  | .GAZETTE => "AMTSBLATT"
  | .MUNICIPAL_WEBSITE => "MUNICIPAL_WEBSITE"

/-- The source-specific thresholds of the specification, in hundredths:
RIS 0.35/0.20, gazette 0.50/0.30, municipal website 0.60/0.50 for
fast/deep. -/
def sourceThreshold (src : DiscoverySource) (mode : String) : Int :=
  match src, mode with
  | .RIS, "fast" => 35
  | .RIS, _ => 20
  | .GAZETTE, "fast" => 50
  | .GAZETTE, _ => 30
  | .MUNICIPAL_WEBSITE, "fast" => 60
  | .MUNICIPAL_WEBSITE, _ => 50

/-! ## Classifier (apps/extract/classifier_bess.py) -/

/-- A python `datetime` reduced to its calendar components; the classifier
only ever compares dates, which `datetime` does lexicographically. -/
structure PyDate where
  year : Nat
  month : Nat
  day : Nat
deriving DecidableEq

/-- Lexicographic `a <= b` on dates. -/
def PyDate.le (a b : PyDate) : Bool :=
  a.year < b.year ||
    (a.year == b.year &&
      (a.month < b.month || (a.month == b.month && a.day ≤ b.day)))

/-- Lexicographic `a < b` on dates. -/
def PyDate.lt (a b : PyDate) : Bool :=
  a.year < b.year ||
    (a.year == b.year &&
      (a.month < b.month || (a.month == b.month && a.day < b.day)))

/-- The result dict of `classify_relevance`. -/
structure ClassifierResult where
  is_relevant : Bool
  procedure_type : Option String
  legal_basis : Option String
  project_components : Option String
  confidence_score : Int
  ambiguity_flag : Bool
  review_recommended : Bool
  evidence_snippets : List String
deriving DecidableEq

/-- `tag_procedure_type`: permits are checked before B-plan stages. -/
def tag_procedure_type (text : String) : String :=
  if strContains text "bauvorbescheid" || strContains text "vorbescheid" then
    "PERMIT_BAUVORBESCHEID"
  else if strContains text "baugenehmigung" then "PERMIT_BAUGENEHMIGUNG"
  else if strContains text "§ 36 baugb" ||
      (strContains text "gemeindliches einvernehmen" && strContains text "§ 36") then
    "PERMIT_36_EINVERNEHMEN"
  else if strContains text "bauantrag" ||
      (strContains text "antrag auf" && containsAny text PERMIT_TERMS_STRONG) then
    "PERMIT_OTHER"
  else if strContains text "bauvoranfrage" || strContains text "bauvorantrag" then
    "PERMIT_OTHER"
  else if strContains text "kenntnisnahme" &&
      (strContains text "bauantrag" || strContains text "vorhaben") then
    "PERMIT_OTHER"
  else if strContains text "antrag auf errichtung" then "PERMIT_OTHER"
  else if strContains text "aufstellungsbeschluss" ||
      strContains text "beschluss zur aufstellung" || strContains text "§ 2 abs. 1 baugb" then
    "BPLAN_AUFSTELLUNG"
  else if strContains text "§ 3 abs. 1 baugb" || strContains text "frühzeitige beteiligung" ||
      strContains text "fruehzeitige beteiligung" then
    "BPLAN_FRUEHZEITIG_3_1"
  else if strContains text "§ 3 abs. 2 baugb" || strContains text "öffentliche auslegung" ||
      strContains text "oeffentliche auslegung" then
    "BPLAN_AUSLEGUNG_3_2"
  else if strContains text "satzungsbeschluss" || strContains text "§ 10 baugb" ||
      strContains text "inkrafttreten" then
    "BPLAN_SATZUNG"
  else if containsAny text PLANNING_TERMS_STRONG then "BPLAN_OTHER"
  else "UNKNOWN"

/-- Replace newline and tab by blanks; the two python single-character
`str.replace` calls compose to this character map. -/
def replaceNlTab (s : String) : String :=
  ⟨s.data.map (fun c => if c == '\n' || c == '\t' then ' ' else c)⟩

/-- One left-to-right non-overlapping pass of
`str.replace("  ", " ")` (two blanks to one). -/
def squeezeDoubleSpace : List Char → List Char
  | ' ' :: ' ' :: rest => ' ' :: squeezeDoubleSpace rest
  | c :: rest => c :: squeezeDoubleSpace rest
  | [] => []

/-- `tag_legal_basis`: whitespace-tolerant §35 / §34 / §36 detection. -/
def tag_legal_basis (text : String) : String :=
  let tn : String := ⟨squeezeDoubleSpace (replaceNlTab text).data⟩
  if strContains tn "§ 35 baugb" || strContains tn "§35 baugb" ||
      strContains tn "§ 35bau gb" || strContains tn "§35bau gb" ||
      strContains tn "außenbereich" || strContains tn "aussenbereich" then "§35"
  else if strContains tn "§ 34 baugb" || strContains tn "§34 baugb" ||
      strContains tn "§ 34bau gb" || strContains tn "§34bau gb" ||
      strContains tn "innenbereich" then "§34"
  else if strContains tn "§ 36 baugb" || strContains tn "§36 baugb" ||
      strContains tn "§ 36bau gb" || strContains tn "§36bau gb" then "§36"
  else "unknown"

/-- `tag_project_components`. -/
def tag_project_components (text : String) : String :=
  let tn := replaceNlTab text
  let has_pv := containsAny tn ["photovoltaik", "pv", "solarpark"]
  let has_wind := containsAny tn ["windenergie", "windpark"]
  let has_bess := containsAny tn BESS_TERMS_EXPLICIT || strContains tn "speicher"
  let has_container := strContains tn "containeranlage"
  let has_grid :=
    containsAny tn ["netz", "umspannwerk", "trafostation", "mittelspannung", "hochspannung"]
  let has_bess := if has_container && has_grid then true else has_bess
  let has_bess := if strContains tn "anlage zur energiespeicherung" then true else has_bess
  if has_pv && has_bess then "PV+BESS"
  else if has_wind && has_bess then "WIND+BESS"
  else if has_bess then "BESS_ONLY"
  else "OTHER/UNCLEAR"

/-- Python `max(0.0, min(1.0, score))` in hundredths. -/
def clamp01 (s : Int) : Int := max 0 (min 100 s)

def confidenceGridTerms : List String :=
  ["umspannwerk", "netzanschluss", "trafostation", "mittelspannung", "hochspannung",
   "netzverknuepfungspunkt", "netzverknüpfungspunkt"]

/-- The additive increments, deductions and clamp of
`calculate_confidence` (the arithmetic applied on the non-early-return
path). -/
def confidence_raw (text : String) (date : Option PyDate) : Int :=
  let score : Int :=
    if containsAny text ["batteriespeicher", "energiespeicher", "stromspeicher"] then 55
    else if containsAny text ["speicheranlage", "grossspeicher", "großspeicher", "speicherpark"]
      then 35
    else if strContains text "speicher" && containsAny text ENERGY_CONTEXT_TERMS then 15
    else 0
  let score := if containsAny text PLANNING_STEP_TERMS then score + 25 else score
  let score :=
    if strContains text "bauvorbescheid" || strContains text "baugenehmigung" then score + 25
    else score
  let score :=
    if strContains text "§ 36 baugb" || strContains text "gemeindliches einvernehmen" then
      score + 20
    else score
  let score := if containsAny text confidenceGridTerms then score + 10 else score
  let score :=
    if strContains text "speicher" && !containsAny text BESS_TERMS_CONTAINER_GRID then
      score - 25
    else score
  let score := if date == none then score - 15 else score
  clamp01 score

/-- `calculate_confidence(text, title, has_bess_explicit, date)` in integer
hundredths.  In the source the additive part is computed first and the
negative-term early return then discards it and yields 0.0; hoisting that
test to the top and gathering the arithmetic in `confidence_raw` gives
the same function.  The `title` parameter is accepted and unused, as in
the source. -/
def calculate_confidence (text : String) (title : String) (has_bess_explicit : Bool)
    (date : Option PyDate) : Int :=
  let _ := title
  let has_negative := containsAny text NEGATIVE_STORAGE_TERMS
  if has_negative && !has_bess_explicit then 0
  else confidence_raw text date

/-- One category of `extract_evidence_snippets`: walk the term list in
order; a term present in the normalized text contributes the stripped
window around its first occurrence, but only if that snippet is non-empty
and at most 250 characters, otherwise the scan continues. -/
def snippetFor (textChars : List Char) (normalized : String) : List String → Option String
  | [] => none
  | t :: rest =>
    if strContains normalized t then
      match findSubChars t.data normalized.data 0 with
      | some idx =>
        let start := idx - 100
        let stop := min textChars.length (idx + t.data.length + 100)
        let snip := pyStripChars ((textChars.take stop).drop start)
        if !snip.isEmpty && snip.length ≤ 250 then some ⟨snip⟩
        else snippetFor textChars normalized rest
      | none => snippetFor textChars normalized rest
    else snippetFor textChars normalized rest

/-- `extract_evidence_snippets(text, title, normalized)`: one snippet per
category (BESS terms, procedure terms, legal basis), at most five in
total; the `title` parameter is accepted and unused, as in the source. -/
def extract_evidence_snippets (text : String) (title : String) (normalized : String) :
    List String :=
  let _ := title
  let textChars := text.data
  let s1 := snippetFor textChars normalized BESS_TERMS_EXPLICIT
  let s2 := snippetFor textChars normalized (PLANNING_STEP_TERMS ++ PERMIT_TERMS_STRONG)
  let s3 := snippetFor textChars normalized LEGAL_BASIS_TERMS
  (([s1, s2, s3].filterMap id).take 5)

def classifierStrongBessTerms : List String :=
  ["batteriespeicher", "batterie-speicher", "energiespeicher", "stromspeicher",
   "grossspeicher", "großspeicher", "bess"]

def classifierMediumBessTerms : List String :=
  ["speicheranlage", "speicherpark", "speicherkraftwerk"]

/-- The all-false result dict `classify_relevance` initialises and returns
on rejection. -/
def emptyClassifierResult : ClassifierResult :=
  { is_relevant := false, procedure_type := none, legal_basis := none,
    project_components := none, confidence_score := 0, ambiguity_flag := false,
    review_recommended := false, evidence_snippets := [] }

/-- `classify_relevance(text, title, date)`.  Rule R3's body sets the
relevance and ambiguity flags exactly when its outer guard (generic
storage term, not yet relevant, no negative term) and inner guard (at
least two grid terms and a planning-step or permit term) both hold, which
is the `r3fires` conjunction below. -/
def classify_relevance (text : String) (title : String) (date : Option PyDate) :
    ClassifierResult :=
  let normalized_text := normalize_text text
  let original_text := text
  let normalized_title := normalize_text title
  let original_title := title
  let combined := normalized_text ++ " " ++ normalized_title
  let original_combined := pyLower (original_text ++ " " ++ original_title)
  let negTerms := NEGATIVE_STORAGE_TERMS ++ NEGATIVE_UNRELATED_TERMS
  let has_negative :=
    containsAny combined negTerms || containsAny original_combined negTerms
  let has_bess_explicit := containsAny combined classifierStrongBessTerms
  let has_medium_bess := containsAny combined classifierMediumBessTerms
  let has_procedure :=
    containsAny combined (PLANNING_TERMS_STRONG ++ PLANNING_STEP_TERMS ++ PERMIT_TERMS_STRONG)
  if has_negative && !has_bess_explicit then emptyClassifierResult
  else
    let rel1 := has_bess_explicit && has_procedure && !has_negative
    let rel2 :=
      (match date with
       | some d => PyDate.le ⟨2023, 1, 1⟩ d
       | none => false) &&
      containsAny normalized_title ["batteriespeicher", "energiespeicher"]
    let rel12 := rel1 || rel2
    let grid_terms_count :=
      (BESS_TERMS_CONTAINER_GRID.filter (fun t => strContains combined t)).length
    let has_procedure_term :=
      containsAny combined (PLANNING_STEP_TERMS ++ PERMIT_TERMS_STRONG)
    let r3fires :=
      (strContains combined "speicher" || has_medium_bess) && !rel12 && !has_negative &&
        (decide (2 ≤ grid_terms_count) && has_procedure_term)
    let is_relevant := rel12 || r3fires
    if !is_relevant then { emptyClassifierResult with ambiguity_flag := r3fires }
    else
      let conf := calculate_confidence combined normalized_title has_bess_explicit date
      let has_bess_explicit_final := containsAny combined classifierStrongBessTerms
      let amb := if !has_bess_explicit_final then true else r3fires
      let review := decide (35 ≤ conf) && decide (conf ≤ 65)
      { is_relevant := true,
        procedure_type := some (tag_procedure_type combined),
        legal_basis := some (tag_legal_basis combined),
        project_components := some (tag_project_components combined),
        confidence_score := conf,
        ambiguity_flag := amb,
        review_recommended := review,
        evidence_snippets := extract_evidence_snippets original_text original_title combined }

/-! ## Project entities: upsert, rollup, linking
(apps/db/dao.py, apps/extract/project_rollup.py,
apps/extract/entity_resolution.py, apps/worker/project_linking.py) -/

/-- SQL COALESCE of two nullable values. -/
def coalesce {α : Type} : Option α → Option α → Option α
  | some v, _ => some v
  | none, b => b

/-- SQL `GREATEST(COALESCE(a, 0), COALESCE(b, 0))` on numeric columns
(capacities and areas in integer hundredths). -/
def greatestOrZero (a b : Option Int) : Option Int :=
  some (max (a.getD 0) (b.getD 0))

/-- A `project_entities` row, restricted to the columns the upsert merge
touches.  Capacities, area and confidence are in integer hundredths;
`maturity_stage` and `legal_basis_best` hold the enum strings the workers
write. -/
structure ProjectEntity where
  canonical_project_name : Option String
  project_components : Option String
  legal_basis_best : Option String
  site_location_best : Option String
  developer_company_best : Option String
  capacity_mw_best : Option Int
  capacity_mwh_best : Option Int
  area_hectares_best : Option Int
  maturity_stage : String
  first_seen_date : Option PyDate
  last_seen_date : Option PyDate
  max_confidence : Int
  needs_review : Bool
deriving DecidableEq

/-- The legal-basis CASE of the `ON CONFLICT ... DO UPDATE` in
`upsert_project_entity` (dao.py lines 119-123): an incoming §35 or §34
always wins; otherwise a stored §35 or §34 is kept; otherwise plain
COALESCE. -/
def mergeLegalBasis (incoming existing : Option String) : Option String :=
  if incoming == some "§35" || incoming == some "§34" then incoming
  else if existing == some "§35" || existing == some "§34" then existing
  else coalesce incoming existing

def dateMin (a b : PyDate) : PyDate := if PyDate.le a b then a else b

def dateMax (a b : PyDate) : PyDate := if PyDate.le a b then b else a

/-- The `DO UPDATE SET` clause of `upsert_project_entity`: field-by-field
merge of the incoming row (`EXCLUDED`) into the existing row.  Note that
`maturity_stage` is overwritten unconditionally with the incoming value. -/
def mergeProjectEntity (incoming existing : ProjectEntity) : ProjectEntity :=
  { canonical_project_name :=
      coalesce incoming.canonical_project_name existing.canonical_project_name,
    project_components := coalesce incoming.project_components existing.project_components,
    legal_basis_best := mergeLegalBasis incoming.legal_basis_best existing.legal_basis_best,
    site_location_best := coalesce incoming.site_location_best existing.site_location_best,
    developer_company_best :=
      coalesce incoming.developer_company_best existing.developer_company_best,
    capacity_mw_best := greatestOrZero incoming.capacity_mw_best existing.capacity_mw_best,
    capacity_mwh_best := greatestOrZero incoming.capacity_mwh_best existing.capacity_mwh_best,
    area_hectares_best := greatestOrZero incoming.area_hectares_best existing.area_hectares_best,
    maturity_stage := incoming.maturity_stage,
    first_seen_date :=
      some (dateMin (incoming.first_seen_date.getD ⟨9999, 12, 31⟩)
        (existing.first_seen_date.getD ⟨9999, 12, 31⟩)),
    last_seen_date :=
      some (dateMax (incoming.last_seen_date.getD ⟨1900, 1, 1⟩)
        (existing.last_seen_date.getD ⟨1900, 1, 1⟩)),
    max_confidence := max incoming.max_confidence existing.max_confidence,
    needs_review := incoming.needs_review || existing.needs_review }

/-- The `project_entities` table as an association list keyed by project
id (uuids modelled as naturals). -/
abbrev ProjectStore := List (Nat × ProjectEntity)

def lookupProject (store : ProjectStore) (id : Nat) : Option ProjectEntity :=
  match store.find? (fun p => p.1 == id) with
  | some p => some p.2
  | none => none

def updateProject (store : ProjectStore) (id : Nat) (e : ProjectEntity) : ProjectStore :=
  store.map (fun p => if p.1 == id then (id, e) else p)

/-- `upsert_project_entity(cur, row)`: the INSERT uses
`COALESCE(%(project_id)s, gen_random_uuid())`, so a row without a project
id is inserted under a fresh generated id (`freshId` models the
`gen_random_uuid()` draw); a row carrying an id that already exists
triggers the `DO UPDATE` merge.  Returns the updated table and the
project id. -/
def upsert_project_entity (store : ProjectStore) (pid : Option Nat) (freshId : Nat)
    (row : ProjectEntity) : ProjectStore × Nat :=
  match pid with
  | some id =>
    match lookupProject store id with
    | some existing => (updateProject store id (mergeProjectEntity row existing), id)
    | none => (store ++ [(id, row)], id)
  | none => (store ++ [(freshId, row)], freshId)

/-- The legal-basis selection of `compute_best_fields`
(project_rollup.py lines 76-87): collect the non-null legal bases of the
linked procedures and pick by the precedence §35, §34, §36, first
remaining value. -/
def computeBestLegalBasis (legalBases : List (Option String)) : Option String :=
  let lbs := legalBases.filterMap id
  if lbs.isEmpty then none
  else if lbs.contains "§35" then some "§35"
  else if lbs.contains "§34" then some "§34"
  else if lbs.contains "§36" then some "§36"
  else lbs.head?

/-- `MATURITY_PRECEDENCE` of entity_resolution.py: procedure type to
maturity stage. -/
def MATURITY_PRECEDENCE : String → Option String
  | "PERMIT_BAUGENEHMIGUNG" => some "BAUGENEHMIGUNG"
  | "PERMIT_BAUVORBESCHEID" => some "BAUVORBESCHEID"
  | "PERMIT_36_EINVERNEHMEN" => some "PERMIT_36"
  | "BPLAN_SATZUNG" => some "BPLAN_SATZUNG"
  | "BPLAN_AUSLEGUNG_3_2" => some "BPLAN_AUSLEGUNG"
  | "BPLAN_FRUEHZEITIG_3_1" => some "BPLAN_AUFSTELLUNG"
  | "BPLAN_AUFSTELLUNG" => some "BPLAN_AUFSTELLUNG"
  | _ => none

/-- `compute_maturity_stage(procedure_types, legal_basis)`: the highest
stage seen wins; the `legal_basis` parameter is accepted and unused, as in
the source. -/
def compute_maturity_stage (procedure_types : List String) (legal_basis : Option String) :
    String :=
  let _ := legal_basis
  let stages_seen := procedure_types.filterMap MATURITY_PRECEDENCE
  match ["BAUGENEHMIGUNG", "BAUVORBESCHEID", "PERMIT_36", "BPLAN_SATZUNG",
         "BPLAN_AUSLEGUNG", "BPLAN_AUFSTELLUNG"].find? (fun s => stages_seen.contains s) with
  | some stage => stage
  | none => "DISCOVERED"

/-- The maturity precedence stated by the rollup specification:
BAUGENEHMIGUNG over BAUVORBESCHEID over PERMIT_36 over BPLAN_SATZUNG over
BPLAN_AUSLEGUNG over BPLAN_AUFSTELLUNG over DISCOVERED. -/
def maturityRank : String → Nat
  | "BAUGENEHMIGUNG" => 6
  | "BAUVORBESCHEID" => 5
  | "PERMIT_36" => 4
  | "BPLAN_SATZUNG" => 3
  | "BPLAN_AUSLEGUNG" => 2
  | "BPLAN_AUFSTELLUNG" => 1
  | _ => 0

/-- Effect of `link_procedure_to_project_entity` on the project-entities
table.  `isValid` is the container-gate verdict, `matchResult` the project
id found by `find_matching_project` (an SQL query, modelled as an input),
and `projectData36` / `projectDataNew` the two row dicts the function
builds at lines 92-107 resp. 129-144 — neither dict sets `project_id`, so
both upserts insert under a fresh generated id.  A matched procedure only
writes a `project_procedures` link row; the entity table is untouched. -/
def link_procedure_to_project_entity (store : ProjectStore) (isValid : Bool)
    (procedure_type : Option String) (matchResult : Option Nat)
    (projectData36 projectDataNew : ProjectEntity) (freshId : Nat) :
    ProjectStore × Option Nat :=
  if !isValid then (store, none)
  else if procedure_type == some "PERMIT_36_EINVERNEHMEN" then
    match matchResult with
    | none =>
      let r := upsert_project_entity store none freshId projectData36
      (r.1, some r.2)
    | some pid => (store, some pid)
  else
    match matchResult with
    | some pid => (store, some pid)
    | none =>
      let r := upsert_project_entity store none freshId projectDataNew
      (r.1, some r.2)

/-! ## Cached downloader (apps/downloader/fetch_cached.py, apps/net/cache.py,
apps/net/ratelimit.py)

One call to `download_cached` / `head_cached` for a fixed URL is modelled
against an environment holding the robots verdict, the cache entry for the
URL (if any) and the outcome of each successive network attempt.  The
model records the requests issued and the semaphore acquire/release
events, so the claims about conditional headers and about permit balance
are statements over these traces. -/

/-- A cache entry: body plus the sidecar metadata fields
(`set_cached` stores ETag, Last-Modified and Content-Type). -/
structure CacheEntry where
  body : String
  etag : Option String
  last_modified : Option String
  content_type : Option String
deriving DecidableEq

/-- An HTTP response as the downloader consumes it. -/
structure HttpResponse where
  status : Nat
  body : String
  etag : Option String
  last_modified : Option String
  content_type : Option String
deriving DecidableEq

/-- Outcome of one `requests.get` call inside the retry loop. -/
inductive AttemptOutcome
  | resp (r : HttpResponse)
  | timeout
  | reqError
  | raiseOther
deriving DecidableEq

/-- `get_cache_headers(url, base)`: conditional request headers derived
from the cache entry (If-None-Match from the ETag, If-Modified-Since from
Last-Modified), empty when the URL is not cached. -/
def get_cache_headers (cached : Option CacheEntry) : List (String × String) :=
  match cached with
  | none => []
  | some e =>
    (match e.etag with
     | some t => [("If-None-Match", t)]
     | none => []) ++
    (match e.last_modified with
     | some lm => [("If-Modified-Since", lm)]
     | none => [])

/-- Environment of one `download_cached` call: robots verdict, cache state
for the URL, and the outcome of each retry-loop attempt (the list length
plays the role of `max_retries`). -/
structure FetchEnv where
  robotsAllowed : Bool
  cached : Option CacheEntry
  attempts : List AttemptOutcome

/-- Semaphore events of `ratelimit.acquire` / `ratelimit.release`; one
`acquire(url, mode)` takes the global and the per-domain permit, one
`release(url)` returns both. -/
inductive SemEvent
  | acq
  | rel
deriving DecidableEq

/-- Observable outcome of one `download_cached` call: the returned value
(body plus header-derived metadata) or `none`, whether an exception
escaped, the conditional headers of each issued request, and the
semaphore trace. -/
structure FetchOutcome where
  result : Option (String × CacheEntry)
  raised : Bool
  requests : List (List (String × String))
  sems : List SemEvent
deriving DecidableEq

/-- The retry loop of `download_cached` (lines 76-116): per attempt, a 304
answers from the cache (falling through to a retry when the cache is
empty), a 200 stores and returns the body, a 404 is terminal, anything
else retries; an unexpected exception propagates.  Returns the result,
the raised flag and how many requests were issued. -/
def dcLoop (cached : Option CacheEntry) :
    List AttemptOutcome → Option (String × CacheEntry) × Bool × Nat
  | [] => (none, false, 0)
  | .resp r :: rest =>
    if r.status == 304 then
      match cached with
      | some e => (some (e.body, e), false, 1)
      | none =>
        let (res, raised, n) := dcLoop cached rest
        (res, raised, n + 1)
    else if r.status == 200 then
      (some (r.body, ⟨r.body, r.etag, r.last_modified, r.content_type⟩), false, 1)
    else if r.status == 404 then (none, false, 1)
    else
      let (res, raised, n) := dcLoop cached rest
      (res, raised, n + 1)
  | .timeout :: rest =>
    let (res, raised, n) := dcLoop cached rest
    (res, raised, n + 1)
  | .reqError :: rest =>
    let (res, raised, n) := dcLoop cached rest
    (res, raised, n + 1)
  | .raiseOther :: _ => (none, true, 1)

/-- `download_cached(url, ..., use_cache=True)`: robots refusal returns
before any semaphore is taken; a cache hit returns the cached body before
any semaphore is taken and before any request is issued; otherwise the
semaphores are acquired, conditional headers are computed from the (now
necessarily absent) cache entry, the retry loop runs, and the `finally`
block releases the semaphores on every exit path, raising included. -/
def download_cached (env : FetchEnv) : FetchOutcome :=
  if !env.robotsAllowed then ⟨none, false, [], []⟩
  else
    match env.cached with
    | some e => ⟨some (e.body, e), false, [], []⟩
    | none =>
      let condHeaders := get_cache_headers env.cached
      let (res, raised, n) := dcLoop env.cached env.attempts
      ⟨res, raised, List.replicate n condHeaders, [SemEvent.acq] ++ [SemEvent.rel]⟩

/-- Environment of one `head_cached` call: robots verdict, cache state,
and the outcome of the single HEAD request. -/
structure HeadEnv where
  robotsAllowed : Bool
  cached : Option CacheEntry
  attempt : AttemptOutcome

/-- Observable outcome of one `head_cached` call; `head_cached` wraps its
body in `except Exception: return None`, so nothing ever escapes. -/
structure HeadOutcome where
  result : Option CacheEntry
  requests : List (List (String × String))
  sems : List SemEvent
deriving DecidableEq

/-- `head_cached(url, ...)`: robots refusal returns before the semaphores;
otherwise acquire, send one HEAD with the conditional headers from the
cache, interpret 200 (headers) and 304 (cached metadata), swallow
exceptions, and release in the `finally` block. -/
def head_cached (env : HeadEnv) : HeadOutcome :=
  if !env.robotsAllowed then ⟨none, [], []⟩
  else
    let condHeaders := get_cache_headers env.cached
    let result :=
      match env.attempt with
      | .resp r =>
        if r.status == 200 then some (⟨r.body, r.etag, r.last_modified, r.content_type⟩ : CacheEntry)
        else if r.status == 304 then env.cached
        else none
      | _ => none
    ⟨result, [condHeaders], [SemEvent.acq] ++ [SemEvent.rel]⟩

/-! ## SSL fallback (apps/net/http_client.py, apps/net/ssl_policy.py) -/

/-- `urlparse(url).netloc`, lowercased, port stripped — as computed inside
`should_disable_ssl_verify` and `safe_get`: the authority component is
what follows "://" up to the next '/', '?' or '#'; a URL with no "://"
has an empty authority. -/
def hostOf (url : String) : String :=
  let chars := url.data
  let rec afterScheme : List Char → Option (List Char)
    | ':' :: '/' :: '/' :: rest => some rest
    | _ :: rest => afterScheme rest
    | [] => none
  match afterScheme chars with
  | none => ""
  | some rest =>
    let netloc := rest.takeWhile (fun c => !(c == '/' || c == '?' || c == '#'))
    let lowered := netloc.map pyLowerChar
    ⟨lowered.takeWhile (fun c => !(c == ':'))⟩

/-- The built-in allow-list entry of ssl_policy.py. -/
def DEFAULT_INSECURE_SSL_ALLOWLIST : List String := ["ssl.ratsinfo-online.net"]

/-- `should_disable_ssl_verify(url)` against the combined allow-list
(default entry plus the already-normalized entries parsed from
configuration). -/
def should_disable_ssl_verify (envAllowlist : List String) (url : String) : Bool :=
  (DEFAULT_INSECURE_SSL_ALLOWLIST ++ envAllowlist).contains (hostOf url)

/-- Outcome of the first, verifying `sess.get` inside `safe_get`. -/
inductive FirstAttempt
  | ok (respId : Nat)
  | sslError
  | requestError
  | otherError
deriving DecidableEq

/-- Outcome of the verify-disabled retry. -/
inductive RetryAttempt
  | ok (respId : Nat)
  | failed
deriving DecidableEq

/-- Environment of one `safe_get` call with the default `verify=True`. -/
structure SslEnv where
  envAllowlist : List String
  first : FirstAttempt
  retry : RetryAttempt

/-- Observable outcome of one `safe_get` call: the returned response (or
`none`), whether the SSL error was re-raised, the verify flag of each
attempt actually made, and the increments applied to the
`ssl_errors_total` / `ssl_fallback_used_total` counters. -/
structure SafeGetOutcome where
  result : Option Nat
  raisedSsl : Bool
  attempts : List Bool
  sslErrorsInc : Nat
  sslFallbacksInc : Nat
deriving DecidableEq

/-- `safe_get(url, ...)`: first attempt with verification; on `SSLError`
record the error, then retry exactly once with `verify=False` iff the
host is allow-listed (a successful retry records the fallback and returns
the response, a failing retry returns `None` without recording a
fallback); for a non-allow-listed host the `SSLError` is re-raised; other
request errors return `None`. -/
def safe_get (env : SslEnv) (url : String) : SafeGetOutcome :=
  match env.first with
  | .ok r => ⟨some r, false, [true], 0, 0⟩
  | .requestError => ⟨none, false, [true], 0, 0⟩
  | .otherError => ⟨none, false, [true], 0, 0⟩
  | .sslError =>
    if should_disable_ssl_verify env.envAllowlist url then
      match env.retry with
      | .ok r => ⟨some r, false, [true, false], 1, 1⟩
      | .failed => ⟨none, false, [true, false], 1, 0⟩
    else ⟨none, true, [true], 1, 0⟩

/-! ## RIS session pagination (apps/crawlers/ris/sessionnet.py) -/

/-- One session row of a committee listing: its parsed date (if any) and
the agenda items `extract_session_items` would return for it (modelled as
opaque item ids). -/
structure RisSession where
  date : Option PyDate
  items : List Nat
deriving DecidableEq

/-- The pagination cut-off `datetime(2023, 1, 1)`. -/
def risCutoff : PyDate := ⟨2023, 1, 1⟩

/-- Is the session dated strictly before the cut-off?  A session without
a parseable date counts as recent. -/
def sessionIsOld (s : RisSession) : Bool :=
  match s.date with
  | some d => PyDate.lt d risCutoff
  | none => false

/-- The session loop of `list_procedures` (lines 133-159) for one
committee, carrying the consecutive-old counter: an old session increments
the counter and, at the third consecutive old session, breaks out of the
committee before extracting that session's items; a recent or undated
session resets the counter to zero and is extracted. -/
def visitSessions : List RisSession → Nat → List Nat
  | [], _ => []
  | s :: rest, cnt =>
    match s.date with
    | some d =>
      if PyDate.lt d risCutoff then
        if 3 ≤ cnt + 1 then []
        else s.items ++ visitSessions rest (cnt + 1)
      else s.items ++ visitSessions rest 0
    | none => s.items ++ visitSessions rest 0

/-- The committee loop of `list_procedures`: each committee is traversed
with the counter starting at zero (the source resets it after every
committee). -/
def listProceduresItems (committees : List (List RisSession)) : List Nat :=
  (committees.map (fun c => visitSessions c 0)).flatten

/-- Independent characterisation of the stopping point, written from the
claim: traversal of a committee stops at the third of three consecutive
sessions dated before the cut-off; the returned number is how many
sessions from the front are actually processed (the third old session of
the first such triple is itself not processed). -/
def tripleStop : List RisSession → Nat
  | a :: b :: c :: rest =>
    if sessionIsOld a && sessionIsOld b && sessionIsOld c then 2
    else tripleStop (b :: c :: rest) + 1
  | l => l.length

/-- The claim-side traversal, written from the specification's words:
sessions are visited in list order while a counter of consecutive
sessions dated before the cut-off is maintained; descent stops exactly
when the counter reaches 3; a session dated on or after the cut-off
resets the counter to 0; a session with no parseable date is treated as
recent and also resets the counter. -/
def visitSessionsSpec : List RisSession → Nat → List Nat
  | [], _ => []
  | s :: rest, counter =>
    if sessionIsOld s then
      if counter + 1 == 3 then []
      else s.items ++ visitSessionsSpec rest (counter + 1)
    else s.items ++ visitSessionsSpec rest 0

/-- Proof gadget: the number of sessions of a committee actually processed
by the source loop when the consecutive-old counter starts at `cnt`. -/
def genStop : Nat → List RisSession → Nat
  | _, [] => 0
  | cnt, s :: rest =>
    if sessionIsOld s then
      if 3 ≤ cnt + 1 then 0 else genStop (cnt + 1) rest + 1
    else genStop 0 rest + 1

/-- Proof gadget: `tripleStop` seen from a state with two virtual
preceding old sessions. -/
def twoStop : List RisSession → Nat
  | [] => 0
  | s :: rest => if sessionIsOld s then 0 else tripleStop rest + 1

/-- Proof gadget: `tripleStop` seen from a state with one virtual
preceding old session. -/
def oneStop : List RisSession → Nat
  | [] => 0
  | s :: rest => if sessionIsOld s then twoStop rest + 1 else tripleStop rest + 1

/-- Sample project-entity row for witnesses and counterexamples. -/
def mkEntity (maturity : String) (legal : Option String) : ProjectEntity :=
  { canonical_project_name := none, project_components := none, legal_basis_best := legal,
    site_location_best := none, developer_company_best := none, capacity_mw_best := none,
    capacity_mwh_best := none, area_hectares_best := none, maturity_stage := maturity,
    first_seen_date := none, last_seen_date := none, max_confidence := 0,
    needs_review := false }

/-! ## Helper lemmas -/

theorem containsSubChars_append_right (pat xs ys : List Char)
    (h : containsSubChars pat ys = true) : containsSubChars pat (xs ++ ys) = true := by
  induction xs with
  | nil => simpa using h
  | cons x xs ih =>
    simp only [List.cons_append, containsSubChars]
    exact Or.inr ih |> Bool.or_eq_true_iff.mpr

theorem strContains_append_left (a b t : String) (h : strContains b t = true) :
    strContains (a ++ b) t = true := by
  simp only [strContains, String.data_append] at *
  exact containsSubChars_append_right _ _ _ h

theorem containsAny_append_left (a b : String) (terms : List String)
    (h : containsAny b terms = true) : containsAny (a ++ b) terms = true := by
  simp only [containsAny, List.any_eq_true] at *
  obtain ⟨t, ht, hc⟩ := h
  exact ⟨t, ht, strContains_append_left a b t hc⟩

theorem clamp_bounds (s : Int) : 0 ≤ max 0 (min 100 s) ∧ max 0 (min 100 s) ≤ 100 := by
  constructor
  · exact le_max_left 0 _
  · exact max_le (by norm_num) (min_le_left 100 s)

/-! ## Claim C8 -/

/-- C8, counterexample: the title "Amtsblatt Batteriespeicher Solar" is
gazette-container-like ("amtsblatt") and has no procedure signal, so the
−0.7 penalty applies, yet the score is 0.30 (= 0.6 strong BESS + 0.4
solar − 0.7), not 0 — refuting the claim that such a title always scores
0. -/
theorem C8_counterexample :
    containsAny (pyLower "Amtsblatt Batteriespeicher Solar") prefilterContainerTerms = true ∧
    containsAny (pyLower "Amtsblatt Batteriespeicher Solar") prefilterProcedureTerms = false ∧
    prefilter_score "Amtsblatt Batteriespeicher Solar" "" = 30 := by
  decide

/-- C8, amended: `prefilter_score` is in [0, 1] (here [0, 100] in
hundredths); a title containing a strong BESS term and no container term
scores at least 0.6; and a container-like title with no procedure signal
receives the −0.7 penalty, which drives the score to 0 when no other
bonus (strong BESS, solar, URL hint) applies. -/
theorem C8_amended :
    (∀ title url, 0 ≤ prefilter_score title url ∧ prefilter_score title url ≤ 100) ∧
    (∀ title url,
      containsAny (pyLower title) prefilterStrongBessTerms = true →
      containsAny (pyLower title) prefilterContainerTerms = false →
      60 ≤ prefilter_score title url) ∧
    (∀ title url,
      containsAny (pyLower title) prefilterContainerTerms = true →
      containsAny (pyLower title) prefilterProcedureTerms = false →
      containsAny (pyLower title) prefilterStrongBessTerms = false →
      containsAny (pyLower title) prefilterSolarTerms = false →
      containsAny (pyLower url) prefilterUrlProcedureTerms = false →
      prefilter_score title url = 0) := by
  refine ⟨fun title url => ?_, fun title url hb hc => ?_, fun title url h1 h2 h3 h4 h5 => ?_⟩
  · exact clamp_bounds _
  · simp only [prefilter_score, hb, hc, Bool.false_and, Bool.true_and, if_true, if_false]
    split_ifs <;> first | contradiction | decide
  · simp only [prefilter_score, h1, h2, h3, h4, h5, Bool.not_false, Bool.and_true,
      Bool.true_and, if_true, if_false]
    decide

/-- C8, witness for the amended theorem: the bare strong-BESS title
"batteriespeicher" scores at least 0.6, and the bare container title
"amtsblatt" scores 0. -/
theorem C8_witness :
    60 ≤ prefilter_score "batteriespeicher" "" ∧ prefilter_score "amtsblatt" "" = 0 :=
  ⟨C8_amended.2.1 "batteriespeicher" "" (by decide) (by decide),
   C8_amended.2.2 "amtsblatt" "" (by decide) (by decide) (by decide) (by decide) (by decide)⟩

/-! ## Claim C5 -/

/-- C5: for every prefilter score and mode (fast or deep),
`should_extract` applied to the discovery-source tag the worker stores
(RIS, AMTSBLATT for the gazette, MUNICIPAL_WEBSITE) returns true iff the
score meets the source-specific threshold: 0.35/0.20 for RIS, 0.50/0.30
for the gazette, 0.60/0.50 for the municipal website (fast/deep, in
hundredths). -/
theorem C5_should_extract_thresholds (ps : Int) (src : DiscoverySource) (mode : String)
    (hmode : mode = "fast" ∨ mode = "deep") :
    (should_extract ps mode (some src.tag) = true ↔ sourceThreshold src mode ≤ ps) := by
  rcases hmode with rfl | rfl <;> cases src <;>
    simp [should_extract, DiscoverySource.tag, sourceThreshold]

/-- C5, witness: with the fast mode and the RIS tag, a score of exactly
0.35 is extracted, and 0.35 meets the RIS fast threshold. -/
theorem C5_witness :
    should_extract 35 "fast" (some DiscoverySource.RIS.tag) = true :=
  (C5_should_extract_thresholds 35 DiscoverySource.RIS "fast" (Or.inl rfl)).mpr (by decide)

/-! ## Claim C7 -/

theorem classify_review_eq (text title : String) (date : Option PyDate) :
    (classify_relevance text title date).review_recommended =
      (decide (35 ≤ (classify_relevance text title date).confidence_score) &&
       decide ((classify_relevance text title date).confidence_score ≤ 65)) := by
  simp only [classify_relevance]
  split
  · rfl
  · split
    · rfl
    · rfl

/-- C7: `calculate_confidence` always lands in [0, 1] (here [0, 100] in
hundredths); a text with a negative-storage term and no explicit BESS
term scores exactly 0 through the early return; and every relevant item
whose final score lies in [0.35, 0.65] gets the `review_recommended`
flag from `classify_relevance`. -/
theorem C7_confidence_and_review :
    (∀ text title hbe date,
      0 ≤ calculate_confidence text title hbe date ∧
        calculate_confidence text title hbe date ≤ 100) ∧
    (∀ text title date, containsAny text NEGATIVE_STORAGE_TERMS = true →
      calculate_confidence text title false date = 0) ∧
    (∀ text title date, (classify_relevance text title date).is_relevant = true →
      35 ≤ (classify_relevance text title date).confidence_score →
      (classify_relevance text title date).confidence_score ≤ 65 →
      (classify_relevance text title date).review_recommended = true) := by
  refine ⟨fun text title hbe date => ?_, fun text title date h => ?_,
    fun text title date hrel h35 h65 => ?_⟩
  · simp only [calculate_confidence]
    split
    · exact ⟨le_refl 0, by norm_num⟩
    · exact clamp_bounds _
  · simp only [calculate_confidence, h, Bool.not_false, Bool.and_true, Bool.true_and,
      Bool.and_self, if_true]
  · rw [classify_review_eq]
    simp only [Bool.and_eq_true, decide_eq_true_eq]
    exact ⟨h35, h65⟩

/-- C7, witness: a rain-retention text with a generic storage word and no
explicit BESS term scores 0, and a relevant item whose score is exactly
0.65 is flagged for review. -/
theorem C7_witness :
    calculate_confidence "regenrueckhaltebecken speicher" "" false none = 0 ∧
    (classify_relevance "Stromspeicher Bebauungsplan Netzanschluss" ""
      (some ⟨2024, 1, 1⟩)).review_recommended = true :=
  ⟨C7_confidence_and_review.2.1 "regenrueckhaltebecken speicher" "" none (by decide),
   C7_confidence_and_review.2.2 "Stromspeicher Bebauungsplan Netzanschluss" ""
     (some ⟨2024, 1, 1⟩) (by decide) (by decide) (by decide)⟩

/-! ## Claim C2 -/

/-- C2, counterexample: the title "Batteriespeicher" normalizes to a
string containing "batteriespeicher", yet with no supplied date
`classify_relevance` does not mark the item relevant — rule R2 is guarded
by `if date and date >= datetime(2023, 1, 1)`, so an absent date
deactivates it (and no other rule applies to this input). -/
theorem C2_counterexample :
    strContains (normalize_text "Batteriespeicher") "batteriespeicher" = true ∧
    (classify_relevance "" "Batteriespeicher" none).is_relevant = false := by
  decide

/-- C2, amended: rule R2 marks an item relevant whenever a decision date
on or after 2023-01-01 is supplied together with a normalized title
containing "batteriespeicher" or "energiespeicher"; with no date supplied
R2 does not activate (an absent date is treated as ineligible, not
eligible). -/
theorem C2_amended (text title : String) (d : PyDate)
    (hd : PyDate.le ⟨2023, 1, 1⟩ d = true)
    (ht : containsAny (normalize_text title) ["batteriespeicher", "energiespeicher"] = true) :
    (classify_relevance text title (some d)).is_relevant = true := by
  have hb : containsAny (normalize_text text ++ " " ++ normalize_text title)
      classifierStrongBessTerms = true := by
    have hstep : containsAny (normalize_text title) classifierStrongBessTerms = true := by
      simp only [containsAny, List.any_eq_true] at ht ⊢
      obtain ⟨t, htmem, hc⟩ := ht
      refine ⟨t, ?_, hc⟩
      simp only [classifierStrongBessTerms]
      simp only [List.mem_cons, List.mem_singleton] at htmem ⊢
      tauto
    exact containsAny_append_left _ _ _ hstep
  simp only [classify_relevance, hb, hd, ht, Bool.not_true, Bool.and_false, Bool.true_and,
    Bool.and_true, Bool.or_true, Bool.true_or, Bool.not_false, if_false, if_true,
    Bool.false_and, Bool.and_self, Bool.false_eq_true, if_neg, not_false_eq_true]

/-- C2, witness for the amended theorem: the title "Batteriespeicher"
with the supplied date 2024-03-15 is classified relevant. -/
theorem C2_witness :
    (classify_relevance "" "Batteriespeicher" (some ⟨2024, 3, 15⟩)).is_relevant = true :=
  C2_amended "" "Batteriespeicher" ⟨2024, 3, 15⟩ (by decide) (by decide)

/-! ## Claim C1 -/

theorem lookupProject_append (store : ProjectStore) (x : Nat × ProjectEntity) (id : Nat)
    (e : ProjectEntity) (h : lookupProject store id = some e) :
    lookupProject (store ++ [x]) id = some e := by
  induction store with
  | nil => simp [lookupProject] at h
  | cons y ys ih =>
    simp only [lookupProject, List.find?] at h ⊢
    cases hy : (y.1 == id) with
    | true => simpa [hy] using h
    | false =>
      simp only [hy] at h ⊢
      exact ih h

/-- C1, counterexample: `upsert_project_entity` sets
`maturity_stage = EXCLUDED.maturity_stage` unconditionally, so an upsert
that carries an existing project id and a lower stage replaces
BAUGENEHMIGUNG by DISCOVERED — maturity is not monotone under arbitrary
upserts. -/
theorem C1_counterexample :
    ((lookupProject (upsert_project_entity [(0, mkEntity "BAUGENEHMIGUNG" none)] (some 0) 1
        (mkEntity "DISCOVERED" none)).1 0).map (fun e => e.maturity_stage) =
      some "DISCOVERED") ∧
    maturityRank "DISCOVERED" < maturityRank "BAUGENEHMIGUNG" := by
  decide

/-- C1, amended: across the linking flow
(`link_procedure_to_project_entity`) maturity is indeed non-decreasing,
because the flow never updates an existing project entity at all: a
matched procedure only adds a link row, and an unmatched one inserts a
new project under a freshly generated id, so every stored entity — its
maturity stage included — is left exactly as it was.  The plain overwrite
in `upsert_project_entity` can downgrade maturity only when a caller
passes an existing project id, which the linking flow never does. -/
theorem C1_amended (store : ProjectStore) (isValid : Bool) (ptype : Option String)
    (matchResult : Option Nat) (projectData36 projectDataNew : ProjectEntity)
    (freshId : Nat) (id : Nat) (e : ProjectEntity)
    (h : lookupProject store id = some e) :
    lookupProject (link_procedure_to_project_entity store isValid ptype matchResult
        projectData36 projectDataNew freshId).1 id = some e := by
  cases isValid with
  | false => simpa [link_procedure_to_project_entity] using h
  | true =>
    cases matchResult with
    | none =>
      by_cases hp : (ptype == some "PERMIT_36_EINVERNEHMEN") = true <;>
        simp only [link_procedure_to_project_entity, upsert_project_entity, hp,
          Bool.not_true, if_false, if_true, Bool.false_eq_true, if_neg, not_false_eq_true] <;>
        exact lookupProject_append _ _ _ _ h
    | some pid =>
      by_cases hp : (ptype == some "PERMIT_36_EINVERNEHMEN") = true <;>
        simpa [link_procedure_to_project_entity, hp] using h

/-- C1, witness for the amended theorem: linking an unmatched procedure
into a store holding project 5 at stage BPLAN_SATZUNG leaves project 5
untouched. -/
theorem C1_witness :
    lookupProject (link_procedure_to_project_entity
        [(5, mkEntity "BPLAN_SATZUNG" none)] true none none
        (mkEntity "PERMIT_36" (some "§36")) (mkEntity "DISCOVERED" none) 7).1 5 =
      some (mkEntity "BPLAN_SATZUNG" none) :=
  C1_amended [(5, mkEntity "BPLAN_SATZUNG" none)] true none none
    (mkEntity "PERMIT_36" (some "§36")) (mkEntity "DISCOVERED" none) 7 5
    (mkEntity "BPLAN_SATZUNG" none) (by decide)

/-! ## Claim C3 -/

/-- C3, counterexample: merging a procedure whose legal basis is §34 into
a project whose stored best legal basis is §35 replaces §35 by §34 — the
CASE in `upsert_project_entity` prefers any incoming §35/§34 over the
stored value, so the merge does not obey §35 over §34. -/
theorem C3_counterexample :
    mergeLegalBasis (some "§34") (some "§35") = some "§34" ∧
    ¬ mergeLegalBasis (some "§34") (some "§35") = some "§35" := by
  decide

/-- C3, amended: the SQL merge keeps a stored §35 or §34 against any
incoming value outside {§35, §34} (so §36, unknown or null never
downgrade it), but an incoming §34 replaces a stored §35 and vice versa;
the full precedence §35 over §34 over §36 over any other value is
implemented in `compute_best_fields` over the linked procedures' legal
bases, not in the merge. -/
theorem C3_amended :
    (∀ incoming existing : Option String,
      (existing = some "§35" ∨ existing = some "§34") →
      ¬ incoming = some "§35" → ¬ incoming = some "§34" →
      mergeLegalBasis incoming existing = existing) ∧
    (∀ l : List (Option String), some "§35" ∈ l →
      computeBestLegalBasis l = some "§35") ∧
    (∀ l : List (Option String), ¬ some "§35" ∈ l → some "§34" ∈ l →
      computeBestLegalBasis l = some "§34") ∧
    (∀ l : List (Option String), ¬ some "§35" ∈ l → ¬ some "§34" ∈ l → some "§36" ∈ l →
      computeBestLegalBasis l = some "§36") := by
  have hmem : ∀ (l : List (Option String)) (s : String), (s ∈ l.filterMap id ↔ some s ∈ l) := by
    intro l s
    simp only [List.mem_filterMap, id_eq]
    constructor
    · rintro ⟨a, ha, rfl⟩
      exact ha
    · intro h
      exact ⟨some s, h, rfl⟩
  have hcon : ∀ (l : List (Option String)) (s : String),
      (l.filterMap id).contains s = decide (some s ∈ l) := by
    intro l s
    show (l.filterMap id).elem s = decide (some s ∈ l)
    rw [List.elem_eq_mem]
    exact decide_eq_decide.mpr (hmem l s)
  have hne : ∀ (l : List (Option String)) (s : String), some s ∈ l →
      (l.filterMap id).isEmpty = false := by
    intro l s hs
    have h1 : s ∈ l.filterMap id := (hmem l s).mpr hs
    cases hfe : l.filterMap id with
    | nil => rw [hfe] at h1; simp at h1
    | cons a as => simp
  refine ⟨fun incoming existing hex h35 h34 => ?_, fun l hl => ?_, fun l hn35 h34 => ?_,
    fun l hn35 hn34 h36 => ?_⟩
  · have e1 : (incoming == some "§35") = false := beq_eq_false_iff_ne.mpr h35
    have e2 : (incoming == some "§34") = false := beq_eq_false_iff_ne.mpr h34
    rcases hex with rfl | rfl <;> simp [mergeLegalBasis, e1, e2]
  · simp [computeBestLegalBasis, hne l _ hl, hcon, hl]
  · simp [computeBestLegalBasis, hne l _ h34, hcon, hn35, h34]
  · simp [computeBestLegalBasis, hne l _ h36, hcon, hn35, hn34, h36]

/-- C3, witness for the amended theorem: a stored §35 survives an
incoming §36, and the rollup over the legal bases [§34, §35] picks
§35. -/
theorem C3_witness :
    mergeLegalBasis (some "§36") (some "§35") = some "§35" ∧
    computeBestLegalBasis [some "§34", some "§35"] = some "§35" :=
  ⟨C3_amended.1 (some "§36") (some "§35") (Or.inl rfl) (by decide) (by decide),
   C3_amended.2.1 [some "§34", some "§35"] (by decide)⟩

/-! ## Claim C4 -/

/-- C4, counterexample: with a cache entry carrying the ETag "abc" in
place, `download_cached` issues no request at all — the cache-hit early
return fires before the conditional-header code — so no `If-None-Match`
header is sent on the next fetch; the call returns the cached body
directly. -/
theorem C4_counterexample :
    (download_cached ⟨true, some ⟨"body", some "abc", none, none⟩,
        [AttemptOutcome.resp ⟨200, "fresh", none, none, none⟩]⟩).requests = [] ∧
    (download_cached ⟨true, some ⟨"body", some "abc", none, none⟩,
        [AttemptOutcome.resp ⟨200, "fresh", none, none, none⟩]⟩).result =
      some ("body", ⟨"body", some "abc", none, none⟩) := by
  decide

/-- C4, amended: for every URL with a cache entry, `download_cached`
returns the previously cached body unchanged without sending any request
(and without raising); the `If-None-Match` header equal to the stored
ETag is produced by `get_cache_headers`, but `download_cached` only
consults it on the no-entry path, where it is empty — so the conditional
GET and the 304 branch are never exercised for a cached URL. -/
theorem C4_amended :
    (∀ (e : CacheEntry) (attempts : List AttemptOutcome),
      download_cached ⟨true, some e, attempts⟩ = ⟨some (e.body, e), false, [], []⟩) ∧
    (∀ (e : CacheEntry) (t : String), e.etag = some t →
      ("If-None-Match", t) ∈ get_cache_headers (some e)) ∧
    (∀ attempts : List AttemptOutcome,
      (download_cached ⟨true, none, attempts⟩).requests.all (fun hs => hs == []) = true) := by
  refine ⟨fun e attempts => rfl, fun e t h => ?_, fun attempts => ?_⟩
  · simp [get_cache_headers, h]
  · simp only [download_cached, get_cache_headers]
    simp [List.all_eq_true]

/-- C4, witness for the amended theorem: a concrete cached entry is
returned as-is with no request, and its ETag yields the If-None-Match
header through `get_cache_headers`. -/
theorem C4_witness :
    download_cached ⟨true, some ⟨"b", some "xyz", none, none⟩, []⟩ =
      ⟨some ("b", ⟨"b", some "xyz", none, none⟩), false, [], []⟩ ∧
    ("If-None-Match", "xyz") ∈ get_cache_headers (some ⟨"b", some "xyz", none, none⟩) :=
  ⟨C4_amended.1 ⟨"b", some "xyz", none, none⟩ [],
   C4_amended.2.1 ⟨"b", some "xyz", none, none⟩ "xyz" rfl⟩

/-! ## Claim C10 -/

/-- C10: every `download_cached` / `head_cached` call either never takes
the rate-limit semaphores (robots refusal or cache hit, both handled
before `acquire`) or takes them once and releases them once, on every
exit path — HTTP failures, retry exhaustion and raised exceptions
included — so the acquire and release counts always balance and no
permit is ever lost. -/
theorem C10_semaphore_balance :
    ∀ (env : FetchEnv) (henv : HeadEnv),
      ((download_cached env).sems = [] ∨
        (download_cached env).sems = [SemEvent.acq, SemEvent.rel]) ∧
      ((download_cached env).sems.count SemEvent.acq =
        (download_cached env).sems.count SemEvent.rel) ∧
      ((head_cached henv).sems = [] ∨
        (head_cached henv).sems = [SemEvent.acq, SemEvent.rel]) ∧
      ((head_cached henv).sems.count SemEvent.acq =
        (head_cached henv).sems.count SemEvent.rel) := by
  intro env henv
  obtain ⟨robots, cached, attempts⟩ := env
  obtain ⟨hrobots, hcached, attempt⟩ := henv
  cases robots <;> cases cached <;> cases hrobots <;>
    simp [download_cached, head_cached]

/-! ## Claim C6 -/

/-- C6, counterexample: for the allow-listed host
ssl.ratsinfo-online.net, an SSL failure followed by a failing
verify-disabled retry does perform the fallback attempt (the second
attempt runs with verification off), yet `ssl_fallback_used_total` is not
incremented — `record_ssl_fallback` runs only after a successful retry —
refuting "every such fallback increments the counter". -/
theorem C6_counterexample :
    (safe_get ⟨[], FirstAttempt.sslError, RetryAttempt.failed⟩
        "https://ssl.ratsinfo-online.net/sitzungen").attempts = [true, false] ∧
    (safe_get ⟨[], FirstAttempt.sslError, RetryAttempt.failed⟩
        "https://ssl.ratsinfo-online.net/sitzungen").sslFallbacksInc = 0 := by
  decide

/-- C6, amended: after an SSL verification failure the request is retried
exactly once with verification disabled iff the URL's host is in the
allow-list (the default list holds the single origin
ssl.ratsinfo-online.net, extended by configuration); a fallback retry
that yields a response increments `ssl_fallback_used_total`, while a
fallback retry that itself fails returns None without incrementing; for
a non-allow-listed host the SSL error is raised to the caller. -/
theorem C6_amended (env : SslEnv) (url : String) :
    ((safe_get env url).attempts.contains false = true ↔
      (env.first = FirstAttempt.sslError ∧
        should_disable_ssl_verify env.envAllowlist url = true)) ∧
    ((safe_get env url).attempts.count false ≤ 1) ∧
    (env.first = FirstAttempt.sslError →
      should_disable_ssl_verify env.envAllowlist url = true →
      (∀ r, env.retry = RetryAttempt.ok r →
        (safe_get env url).sslFallbacksInc = 1 ∧ (safe_get env url).result = some r) ∧
      (env.retry = RetryAttempt.failed →
        (safe_get env url).sslFallbacksInc = 0 ∧ (safe_get env url).result = none)) ∧
    (env.first = FirstAttempt.sslError →
      should_disable_ssl_verify env.envAllowlist url = false →
      (safe_get env url).raisedSsl = true) := by
  obtain ⟨allow, first, retry⟩ := env
  cases hd : should_disable_ssl_verify allow url <;> cases first <;> cases retry <;>
    simp [safe_get, hd]

/-- C6, witness for the amended theorem: on the default allow-listed
origin a successful fallback counts one `ssl_fallback_used_total`
increment, and on a non-allow-listed origin the SSL error is raised. -/
theorem C6_witness :
    (safe_get ⟨[], FirstAttempt.sslError, RetryAttempt.ok 7⟩
        "https://ssl.ratsinfo-online.net/a").sslFallbacksInc = 1 ∧
    (safe_get ⟨[], FirstAttempt.sslError, RetryAttempt.ok 7⟩
        "https://example.com/a").raisedSsl = true :=
  ⟨((C6_amended ⟨[], FirstAttempt.sslError, RetryAttempt.ok 7⟩
      "https://ssl.ratsinfo-online.net/a").2.2.1 rfl (by decide)).1 7 rfl |>.1,
   (C6_amended ⟨[], FirstAttempt.sslError, RetryAttempt.ok 7⟩
      "https://example.com/a").2.2.2 rfl (by decide)⟩

/-! ## Claim C9 -/

theorem visit_spec_eq : ∀ (c : List RisSession) (cnt : Nat), cnt ≤ 2 →
    visitSessions c cnt = visitSessionsSpec c cnt := by
  intro c
  induction c with
  | nil => intro cnt _; rfl
  | cons s rest ih =>
    intro cnt hcnt
    cases hd : s.date with
    | none => simp [visitSessions, visitSessionsSpec, sessionIsOld, hd, ih 0 (by omega)]
    | some d =>
      cases hlt : PyDate.lt d risCutoff with
      | false => simp [visitSessions, visitSessionsSpec, sessionIsOld, hd, hlt, ih 0 (by omega)]
      | true =>
        by_cases h2 : cnt = 2
        · subst h2
          simp [visitSessions, visitSessionsSpec, sessionIsOld, hd, hlt]
        · have h3 : ¬ 3 ≤ cnt + 1 := by omega
          have h3b : (cnt + 1 == 3) = false := by
            simp only [beq_eq_false_iff_ne]; omega
          simp [visitSessions, visitSessionsSpec, sessionIsOld, hd, hlt, h3, h3b,
            ih (cnt + 1) (by omega)]

theorem visit_take : ∀ (c : List RisSession) (cnt : Nat),
    visitSessions c cnt = ((c.take (genStop cnt c)).map RisSession.items).flatten := by
  intro c
  induction c with
  | nil => intro cnt; rfl
  | cons s rest ih =>
    intro cnt
    cases hd : s.date with
    | none => simp [visitSessions, genStop, sessionIsOld, hd, ih 0]
    | some d =>
      cases hlt : PyDate.lt d risCutoff with
      | false => simp [visitSessions, genStop, sessionIsOld, hd, hlt, ih 0]
      | true =>
        by_cases h3 : 3 ≤ cnt + 1
        · simp [visitSessions, genStop, sessionIsOld, hd, hlt, h3]
        · simp [visitSessions, genStop, sessionIsOld, hd, hlt, h3, ih (cnt + 1)]

theorem tripleStop_cons : ∀ (rest : List RisSession) (s : RisSession),
    tripleStop (s :: rest) =
      if sessionIsOld s then oneStop rest + 1 else tripleStop rest + 1 := by
  have key : ∀ (n : Nat) (rest : List RisSession), rest.length ≤ n → ∀ s,
      tripleStop (s :: rest) =
        if sessionIsOld s then oneStop rest + 1 else tripleStop rest + 1 := by
    intro n
    induction n with
    | zero =>
      intro rest hlen s
      have hnil : rest = [] := List.eq_nil_of_length_eq_zero (Nat.le_zero.mp hlen)
      subst hnil
      cases ho : sessionIsOld s <;> simp [tripleStop, oneStop, ho]
    | succ n ih =>
      intro rest hlen s
      rcases rest with _ | ⟨b, _ | ⟨c, _ | ⟨d, r⟩⟩⟩
      · cases ho : sessionIsOld s <;> simp [tripleStop, oneStop, ho]
      · cases ho : sessionIsOld s <;> cases hb : sessionIsOld b <;>
          simp [tripleStop, oneStop, twoStop, ho, hb]
      · cases ho : sessionIsOld s <;> cases hb : sessionIsOld b <;>
          cases hc : sessionIsOld c <;>
          simp [tripleStop, oneStop, twoStop, ho, hb, hc]
      · have hlen' : (d :: r).length ≤ n := by
          simp only [List.length_cons] at hlen ⊢; omega
        have ihc := ih (d :: r) hlen' c
        cases ho : sessionIsOld s <;> cases hb : sessionIsOld b <;>
          cases hc : sessionIsOld c <;>
          simp [tripleStop, oneStop, twoStop, ho, hb, hc, ihc]
  exact fun rest s => key rest.length rest (le_refl _) s

theorem genStop_eq : ∀ c : List RisSession,
    genStop 0 c = tripleStop c ∧ genStop 1 c = oneStop c ∧ genStop 2 c = twoStop c := by
  intro c
  induction c with
  | nil => exact ⟨rfl, rfl, rfl⟩
  | cons s rest ih =>
    obtain ⟨ih0, ih1, ih2⟩ := ih
    refine ⟨?_, ?_, ?_⟩
    · rw [tripleStop_cons rest s]
      cases ho : sessionIsOld s <;> simp [genStop, ho, ih0, ih1]
    · cases ho : sessionIsOld s <;> simp [genStop, oneStop, ho, ih0, ih2]
    · cases ho : sessionIsOld s <;> simp [genStop, twoStop, ho, ih0]

/-- C9: the RIS crawler's committee traversal visits sessions in list
order with a consecutive-old counter; it equals the traversal written
from the claim's words (`visitSessionsSpec`: counter of consecutive
sessions dated before 2023-01-01, stop exactly at 3, recent or undated
sessions reset), and equivalently each committee contributes exactly the
items of the sessions before its first three-consecutive-old triple, the
third old session excluded (`tripleStop`). -/
theorem C9_pagination (committees : List (List RisSession)) :
    listProceduresItems committees =
      (committees.map (fun c => visitSessionsSpec c 0)).flatten ∧
    listProceduresItems committees =
      (committees.map (fun c =>
        ((c.take (tripleStop c)).map RisSession.items).flatten)).flatten := by
  constructor
  · have h : ∀ c : List RisSession, visitSessions c 0 = visitSessionsSpec c 0 :=
      fun c => visit_spec_eq c 0 (by omega)
    simp [listProceduresItems, h]
  · have h : ∀ c : List RisSession,
        visitSessions c 0 = ((c.take (tripleStop c)).map RisSession.items).flatten := by
      intro c
      rw [visit_take c 0, (genStop_eq c).1]
    simp [listProceduresItems, h]

end BESSCrawler
